import Mathlib

/-!
Verification of the NuClaw Scheduled Execution Engine (src/container_runner.rs,
src/task_scheduler.rs, src/types.rs).

Modelling conventions:
- Rust strings are modelled as `List Char` (the sentinel markers are ASCII, so
  Rust's byte indices coincide with character indices on all inputs considered).
- `serde_json::from_str::<ContainerOutput>` and `cron::Schedule::from_str` are
  external library dependencies of the repository; they appear as explicit
  function parameters (`jp`, `cronParse`).
- `chrono::Utc::now()` is modelled as an explicit `now` parameter; instants are
  epoch milliseconds (`Int`), and the injective `to_rfc3339` rendering of an
  instant into the stored string form appears as an explicit `fmt` parameter.
- The SQLite store is modelled as an explicit `DBState` record threaded through
  the scheduler's operations.
-/

namespace NuClaw

/-- Rust `String` / `&str` contents, modelled as a list of characters. -/
abbrev Str := List Char

/-- Embedding of `ContainerOutput` (src/types.rs 80-86): status tag, optional
result text, optional continuation session id, optional error text. -/
structure ContainerOutput where
  status : Str
  result : Option Str
  new_session_id : Option Str
  error : Option Str
  deriving DecidableEq, Repr

/-- Sentinel start marker (src/container_runner.rs 28). -/
def OUTPUT_START_MARKER : Str := "--NANOCLAW_OUTPUT_START--".toList

/-- Sentinel end marker (src/container_runner.rs 29). -/
def OUTPUT_END_MARKER : Str := "--NANOCLAW_OUTPUT_END--".toList

/-- Embedding of Rust `str::find` with a string pattern: the index of the
first occurrence of `pat` in the haystack, if any. -/
def findSub (pat : Str) : Str → Option Nat
  | [] => if pat.isPrefixOf ([] : Str) then some 0 else none
  | c :: t => if pat.isPrefixOf (c :: t) then some 0 else (findSub pat t).map (· + 1)

/-- Embedding of `extract_marked_output` (src/container_runner.rs 281-289):
find the first occurrence of each marker; if the start marker occurs strictly
before the end marker, return the text strictly between them.  (When
`start_idx < end_idx < start_idx + |start marker|` — only possible when the
end marker overlaps the tail of the start marker — the Rust range slice would
panic; no theorem below relies on that region, where truncated subtraction
stands in for the panic.) -/
def extract_marked_output (output : Str) : Option Str :=
  match findSub OUTPUT_START_MARKER output, findSub OUTPUT_END_MARKER output with
  | some start_idx, some end_idx =>
    if start_idx < end_idx then
      some ((output.drop (start_idx + OUTPUT_START_MARKER.length)).take
        (end_idx - (start_idx + OUTPUT_START_MARKER.length)))
    else
      none
  | _, _ => none

/-- ASCII whitespace; Rust `char::is_whitespace` additionally covers Unicode
space characters, which do not occur in any input considered here. -/
def isWs (c : Char) : Bool := c = ' ' || c = '\t' || c = '\n' || c = '\r'

/-- Rust `str::trim` (restricted to ASCII whitespace). -/
def trimStr (s : Str) : Str := ((s.dropWhile isWs).reverse.dropWhile isWs).reverse

/-- Split on newline characters, keeping empty pieces.  Rust `str::lines`
differs only in dropping a trailing empty piece and stripping a trailing
carriage return from each piece; both differences are erased by the trimming
and blank-line filtering applied by `lastNonBlankLine`. -/
def splitNl : Str → List Str
  | [] => [[]]
  | c :: t =>
    if c = '\n' then [] :: splitNl t
    else
      match splitNl t with
      | [] => [[c]]
      | h :: r => (c :: h) :: r

/-- The last non-blank line of the output, trimmed (`parse_container_output`,
src/container_runner.rs 256-261). -/
def lastNonBlankLine (output : Str) : Str :=
  trimStr (((splitNl output).reverse.find? (fun l => !(trimStr l).isEmpty)).getD [])

/-- The generic failure message synthesized by the parser
(src/container_runner.rs 276 and 306). -/
def containerFailMsg : Str := "Container execution failed".toList

/-- Embedding of `parse_marked_content` (src/container_runner.rs 291-309).
`jp` stands for the external `serde_json::from_str::<ContainerOutput>`.  The
Rust function returns `Result` but every path is `Ok`, so the embedding
returns the output directly. -/
def parse_marked_content (jp : Str → Option ContainerOutput) (content : Str)
    (success : Bool) : ContainerOutput :=
  match jp content with
  | some parsed => parsed
  | none =>
    { status := if success then "success".toList else "error".toList
      result := some content
      new_session_id := none
      error := if success then none else some containerFailMsg }

/-- The part of `parse_container_output` that runs once sentinel extraction
has failed (src/container_runner.rs 256-278): try the last non-blank line as
a structured record, else synthesize a result. -/
def parse_unmarked (jp : Str → Option ContainerOutput) (output : Str)
    (success : Bool) : ContainerOutput :=
  match jp (lastNonBlankLine output) with
  | some parsed => parsed
  | none =>
    { status := if success then "success".toList else "error".toList
      result := some output
      new_session_id := none
      error := if success then none else some containerFailMsg }

/-- Embedding of `parse_container_output` (src/container_runner.rs 248-279).
The `_duration_ms` argument of the Rust function is unused and omitted. -/
def parse_container_output (jp : Str → Option ContainerOutput) (output : Str)
    (success : Bool) : ContainerOutput :=
  match extract_marked_output output with
  | some content => parse_marked_content jp content success
  | none => parse_unmarked jp output success

/- Sanity checks mirroring the unit tests of src/container_runner.rs. -/

example :
    extract_marked_output ("--NANOCLAW_OUTPUT_START----NANOCLAW_OUTPUT_END--".toList) =
      some [] := by decide

example :
    extract_marked_output
      ("--NANOCLAW_OUTPUT_END--\ncontent\n--NANOCLAW_OUTPUT_START--".toList) = none := by
  decide

example : extract_marked_output ("No markers here".toList) = none := by decide

example :
    extract_marked_output ("--NANOCLAW_OUTPUT_START--\nsome content".toList) = none := by
  decide

example : lastNonBlankLine ("a\n  bc  \n\n   \n".toList) = "bc".toList := by decide

/-- Helper for `parseI64`: accumulate the value of a digit run, failing on the
first non-digit character. -/
def digitsVal : Str → Nat → Option Nat
  | [], acc => some acc
  | c :: t, acc => if c.isDigit then digitsVal t (acc * 10 + (c.toNat - 48)) else none

/-- Value of a non-empty all-digit string. -/
def digitsToNat : Str → Option Nat
  | [] => none
  | c :: t => digitsVal (c :: t) 0

/-- Embedding of Rust `i64::from_str` as used by `interval_str.parse()`:
an optional sign followed by one or more ASCII digits, with the value required
to fit in an `i64`. -/
def parseI64 (s : Str) : Option Int :=
  match s with
  | '+' :: ds => (digitsToNat ds).bind fun n => if n ≤ 2 ^ 63 - 1 then some (n : Int) else none
  | '-' :: ds => (digitsToNat ds).bind fun n => if n ≤ 2 ^ 63 then some (-(n : Int)) else none
  | ds => (digitsToNat ds).bind fun n => if n ≤ 2 ^ 63 - 1 then some (n : Int) else none

/-- The external `cron::Schedule` library value, abstracted to the one
operation the scheduler uses on it: `schedule.after(&now).next()`. -/
structure CronSched where
  afterNext : Int → Option Int

/-- Embedding of `ScheduledTask` (src/types.rs 27-41): one row of the
`scheduled_tasks` table (`id` is its TEXT PRIMARY KEY, src/db.rs 144). -/
structure ScheduledTask where
  id : Str
  group_folder : Str
  chat_jid : Str
  prompt : Str
  schedule_type : Str
  schedule_value : Str
  context_mode : Str
  next_run : Option Str
  last_run : Option Str
  last_result : Option Str
  status : Str
  created_at : Str
  deriving DecidableEq, Repr

/-- Embedding of `calculate_next_interval_run` (src/task_scheduler.rs 258-262):
parse the value as an i64 millisecond count and add it to the current instant
(read by the Rust code from `chrono::Utc::now()`, here the explicit `now`
parameter).  The injective `to_rfc3339` rendering is left to the caller. -/
def calculate_next_interval_run (now : Int) (interval_str : Str) : Option Int :=
  (parseI64 interval_str).map fun millis => now + millis

/-- Embedding of `calculate_next_cron_run` (src/task_scheduler.rs 242-255):
`cronParse` stands for the external `cron::Schedule::from_str`; an unparseable
expression yields `none` (the Rust code additionally logs it). -/
def calculate_next_cron_run (cronParse : Str → Option CronSched) (now : Int)
    (cron_expr : Str) : Option Int :=
  match cronParse cron_expr with
  | some schedule => schedule.afterNext now
  | none => none

/-- Embedding of `calculate_next_run` (src/task_scheduler.rs 232-239): branch
on the schedule kind; `once` and any unrecognized kind yield no occurrence. -/
def calculate_next_run (cronParse : Str → Option CronSched) (now : Int)
    (task : ScheduledTask) : Option Int :=
  if task.schedule_type = "cron".toList then
    calculate_next_cron_run cronParse now task.schedule_value
  else if task.schedule_type = "interval".toList then
    calculate_next_interval_run now task.schedule_value
  else if task.schedule_type = "once".toList then
    none
  else
    none

/-- One row of the `task_run_logs` table as inserted by `log_task_run`
(src/task_scheduler.rs 374-385); the optional result and error texts are
stored through `unwrap_or_default`, hence as plain strings. -/
structure TaskRunLog where
  task_id : Str
  run_at : Str
  duration_ms : Int
  status : Str
  result : Str
  error : Str
  deriving DecidableEq, Repr

/-- The persistent store as visible to the scheduler: the `scheduled_tasks`
rows and the append-only `task_run_logs` rows. -/
structure DBState where
  tasks : List ScheduledTask
  run_logs : List TaskRunLog
  deriving DecidableEq, Repr

/-- Embedding of `load_task` (src/task_scheduler.rs 311-355): the first row
with the given id, if any. -/
def load_task (σ : DBState) (task_id : Str) : Option ScheduledTask :=
  σ.tasks.find? fun r => r.id == task_id

/-- Embedding of `log_task_run` (src/task_scheduler.rs 358-406): append one
`task_run_logs` row, then set `last_run` and `last_result` on the task row
(`last_result` is the output's result on a success-status output, its error
otherwise). -/
def log_task_run (σ : DBState) (task : ScheduledTask) (output : ContainerOutput)
    (duration_ms : Int) (run_status : Str) (now : Str) : DBState :=
  { tasks := σ.tasks.map fun r =>
      if r.id == task.id then
        { r with
            last_run := some now
            last_result :=
              if output.status = "success".toList then output.result else output.error }
      else r
    run_logs := σ.run_logs ++
      [{ task_id := task.id, run_at := now, duration_ms := duration_ms,
         status := run_status, result := output.result.getD [],
         error := output.error.getD [] }] }

/-- Embedding of `update_next_run` (src/task_scheduler.rs 409-426). -/
def update_next_run (σ : DBState) (task_id : Str) (next_run : Str) : DBState :=
  { σ with tasks := σ.tasks.map fun r =>
      if r.id == task_id then { r with next_run := some next_run } else r }

/-- Embedding of `mark_task_completed` (src/task_scheduler.rs 429-446):
status becomes `completed` and `next_run` becomes NULL. -/
def mark_task_completed (σ : DBState) (task_id : Str) : DBState :=
  { σ with tasks := σ.tasks.map fun r =>
      if r.id == task_id then
        { r with status := "completed".toList, next_run := none }
      else r }

/-- Embedding of `mark_task_failed` (src/task_scheduler.rs 449-466): status
becomes `failed`; `next_run` is left alone. -/
def mark_task_failed (σ : DBState) (task_id : Str) : DBState :=
  { σ with tasks := σ.tasks.map fun r =>
      if r.id == task_id then { r with status := "failed".toList } else r }

/-- What `tokio::time::timeout(self.task_timeout, run_container(input))`
produced, as observed by `execute_single_task` (src/task_scheduler.rs 176,
182-225): the race timed out, or `run_container` returned `Err` (its
infrastructure failures — sandbox directory creation, request serialization,
subprocess spawn, I/O — all return early, src/container_runner.rs 120-129),
or it returned a parsed output. -/
inductive ExecOutcome where
  | timeout
  | runErr (msg : Str)
  | completed (output : ContainerOutput)
  deriving DecidableEq, Repr

/-- Embedding of `execute_single_task` (src/task_scheduler.rs 146-229).
Parameters standing for ambient effects: `cronParse` the cron library parser,
`now` the instant the schedule calculator reads, `fmt` the `to_rfc3339`
rendering of an instant, `nowStr` the timestamp written to the store,
`duration_ms` the measured wall-clock duration, and `outcome` what the
timeout-raced `run_container` call produced.  The best-effort file logging
(`log_container_output`) touches no scheduler state and is omitted. -/
def execute_single_task (cronParse : Str → Option CronSched) (now : Int)
    (fmt : Int → Str) (nowStr : Str) (duration_ms : Int) (σ : DBState)
    (task : ScheduledTask) (outcome : ExecOutcome) :
    DBState × Except Str Unit :=
  match load_task σ task.id with
  | none => (σ, Except.error ("Task not found".toList))
  | some current_task =>
    if current_task.status ≠ "active".toList then
      (σ, Except.ok ())
    else
      match outcome with
      | ExecOutcome.completed output =>
        if task.schedule_type = "once".toList then
          (mark_task_completed
            (log_task_run σ task output duration_ms ("success".toList) nowStr)
            task.id, Except.ok ())
        else
          match calculate_next_run cronParse now task with
          | some next_run =>
            (update_next_run
              (log_task_run σ task output duration_ms ("success".toList) nowStr)
              task.id (fmt next_run), Except.ok ())
          | none =>
            (log_task_run σ task output duration_ms ("success".toList) nowStr,
             Except.ok ())
      | ExecOutcome.runErr e =>
        (mark_task_failed
          (log_task_run σ task
            { status := "error".toList, result := none, new_session_id := none,
              error := some e } duration_ms ("error".toList) nowStr)
          task.id, Except.ok ())
      | ExecOutcome.timeout =>
        (mark_task_failed
          (log_task_run σ task
            { status := "timeout".toList, result := none, new_session_id := none,
              error := some ("Task execution timed out".toList) } duration_ms
            ("timeout".toList) nowStr)
          task.id, Except.ok ())

/- Sanity checks mirroring the unit tests of src/task_scheduler.rs. -/

example : parseI64 ("3600000".toList) = some 3600000 := by decide

example : parseI64 ("not_a_number".toList) = none := by decide

example : parseI64 ("-25".toList) = some (-25) := by decide

example : parseI64 ([] : Str) = none := by decide

/-! Lemmas about sentinel search and extraction. -/

/-- `findSub` returns the first occurrence: any index at which the pattern
occurs bounds the returned index from above. -/
theorem findSub_first (pat : Str) :
    ∀ (hay : Str) (i : Nat), pat.isPrefixOf (List.drop i hay) = true →
      ∃ e, findSub pat hay = some e ∧ e ≤ i := by
  intro hay
  induction hay with
  | nil =>
    intro i h
    simp only [List.drop_nil] at h
    exact ⟨0, by simp [findSub, h], Nat.zero_le i⟩
  | cons c t ih =>
    intro i h
    cases i with
    | zero =>
      simp only [List.drop_zero] at h
      exact ⟨0, by simp [findSub, h], le_refl 0⟩
    | succ j =>
      by_cases hp : pat.isPrefixOf (c :: t) = true
      · exact ⟨0, by simp [findSub, hp], Nat.zero_le _⟩
      · obtain ⟨e, he, hle⟩ := ih j (by simpa using h)
        exact ⟨e + 1, by simp [findSub, hp, he], Nat.succ_le_succ hle⟩

/-- Extraction succeeds with the text strictly between the two first
occurrences when the start marker comes strictly first. -/
theorem extract_of_found (output : Str) (s e : Nat)
    (hs : findSub OUTPUT_START_MARKER output = some s)
    (he : findSub OUTPUT_END_MARKER output = some e)
    (hlt : s < e) :
    extract_marked_output output =
      some ((output.drop (s + OUTPUT_START_MARKER.length)).take
        (e - (s + OUTPUT_START_MARKER.length))) := by
  simp [extract_marked_output, hs, he, hlt]

/-- Extraction fails when the first end occurrence does not come strictly
after the first start occurrence. -/
theorem extract_none_of_le (output : Str) (s e : Nat)
    (hs : findSub OUTPUT_START_MARKER output = some s)
    (he : findSub OUTPUT_END_MARKER output = some e)
    (hle : e ≤ s) :
    extract_marked_output output = none := by
  simp [extract_marked_output, hs, he, Nat.not_lt.mpr hle]

/-- C10: sentinel extraction is anchored to the FIRST occurrence of each
marker: when the first start occurrence `s` and the first end occurrence `e`
satisfy `s + |start marker| ≤ e`, the marked content is exactly the substring
strictly between them; and whenever any end-marker occurrence lies strictly
before the first start-marker occurrence, extraction yields no match — even
if a later well-formed start/end pair exists in the same output. -/
theorem C10_first_occurrence_anchoring (output : Str) :
    (∀ s e, findSub OUTPUT_START_MARKER output = some s →
      findSub OUTPUT_END_MARKER output = some e →
      s + OUTPUT_START_MARKER.length ≤ e →
      extract_marked_output output =
        some ((output.drop (s + OUTPUT_START_MARKER.length)).take
          (e - (s + OUTPUT_START_MARKER.length)))) ∧
    (∀ s i, findSub OUTPUT_START_MARKER output = some s →
      OUTPUT_END_MARKER.isPrefixOf (List.drop i output) = true → i < s →
      extract_marked_output output = none) := by
  constructor
  · intro s e hs he hle
    exact extract_of_found output s e hs he
      (lt_of_lt_of_le (Nat.lt_add_of_pos_right (by decide)) hle)
  · intro s i hs hocc hlt
    obtain ⟨e, he, hle⟩ := findSub_first OUTPUT_END_MARKER output i hocc
    exact extract_none_of_le output s e hs he (le_of_lt (lt_of_le_of_lt hle hlt))

/-- Witness for C10: a benign wrapped output extracts the enclosed text, and
an output whose very first character starts an end marker extracts nothing
even though a complete well-formed pair follows. -/
theorem C10_witness :
    extract_marked_output
      ("a--NANOCLAW_OUTPUT_START--hi--NANOCLAW_OUTPUT_END--b".toList) =
      some ("hi".toList) ∧
    extract_marked_output
      ("--NANOCLAW_OUTPUT_END--x--NANOCLAW_OUTPUT_START--y--NANOCLAW_OUTPUT_END--".toList) =
      none := by
  constructor
  · exact ((C10_first_occurrence_anchoring _).1 1 28 (by decide) (by decide)
      (by decide)).trans (by decide)
  · exact (C10_first_occurrence_anchoring _).2 24 0 (by decide) (by decide) (by decide)

/-! Claim C3. -/

/-- The structured record used by the concrete parser stand-in below. -/
def okRecord : ContainerOutput :=
  { status := "success".toList, result := some ("ok".toList),
    new_session_id := none, error := none }

/-- A concrete stand-in for the structured-record sub-parser: accepts exactly
the content `X`. -/
def jpX : Str → Option ContainerOutput :=
  fun s => if s = "X".toList then some okRecord else none

/-- C3 counterexample: this output contains a well-formed start/end sentinel
pair (start strictly before end) whose enclosed substring `X` parses under
`jpX`, yet the parser does not return that record: an earlier end-marker
occurrence makes the first-occurrence extraction fail, the single line does
not sub-parse, and the synthesized fallback is returned instead. -/
theorem C3_counterexample :
    ("--NANOCLAW_OUTPUT_END----NANOCLAW_OUTPUT_START--X--NANOCLAW_OUTPUT_END--".toList :
        Str) =
      "--NANOCLAW_OUTPUT_END--".toList ++ OUTPUT_START_MARKER ++ "X".toList ++
        OUTPUT_END_MARKER ∧
    jpX ("X".toList) = some okRecord ∧
    parse_container_output jpX
      ("--NANOCLAW_OUTPUT_END----NANOCLAW_OUTPUT_START--X--NANOCLAW_OUTPUT_END--".toList)
      true ≠ okRecord := by
  refine ⟨by decide, by decide, by decide⟩

/-- C3 (amended): restricted to the pair determined by the FIRST occurrence
of each marker — if the first start occurrence `s` and first end occurrence
`e` satisfy `s + |start marker| ≤ e` and the substring strictly between them
parses as a structured record, the parser returns that record exactly,
whatever text surrounds the pair. -/
theorem C3_first_pair_returned_exactly (jp : Str → Option ContainerOutput)
    (output : Str) (success : Bool) (s e : Nat) (r : ContainerOutput)
    (hs : findSub OUTPUT_START_MARKER output = some s)
    (he : findSub OUTPUT_END_MARKER output = some e)
    (hle : s + OUTPUT_START_MARKER.length ≤ e)
    (hjp : jp ((output.drop (s + OUTPUT_START_MARKER.length)).take
      (e - (s + OUTPUT_START_MARKER.length))) = some r) :
    parse_container_output jp output success = r := by
  have hx := extract_of_found output s e hs he
    (lt_of_lt_of_le (Nat.lt_add_of_pos_right (by decide)) hle)
  simp [parse_container_output, hx, parse_marked_content, hjp]

/-- Witness for C3 (amended): a wrapped record surrounded by inert text is
returned exactly. -/
theorem C3_witness :
    parse_container_output jpX
      ("pre--NANOCLAW_OUTPUT_START--X--NANOCLAW_OUTPUT_END--suf".toList) true =
      okRecord :=
  C3_first_pair_returned_exactly jpX _ true 3 29 okRecord (by decide) (by decide)
    (by decide) (by decide)

/-! Claim C4. -/

/-- C4: when the first end-marker occurrence lies strictly before the first
start-marker occurrence the two are not treated as a pair and the parser
falls through to the last-non-blank-line fallback; and an end marker exactly
at the end of the start marker is a valid pair whose empty content is handed
to the sub-parse step. -/
theorem C4_reversed_and_empty_pair (jp : Str → Option ContainerOutput)
    (output : Str) (success : Bool) (s e : Nat)
    (hs : findSub OUTPUT_START_MARKER output = some s)
    (he : findSub OUTPUT_END_MARKER output = some e) :
    (e < s →
      extract_marked_output output = none ∧
      parse_container_output jp output success = parse_unmarked jp output success) ∧
    (e = s + OUTPUT_START_MARKER.length →
      extract_marked_output output = some [] ∧
      parse_container_output jp output success = parse_marked_content jp [] success) := by
  constructor
  · intro hlt
    have hx := extract_none_of_le output s e hs he (le_of_lt hlt)
    exact ⟨hx, by simp [parse_container_output, hx]⟩
  · intro heq
    have hx := extract_of_found output s e hs he
      (heq ▸ Nat.lt_add_of_pos_right (by decide))
    rw [heq, Nat.sub_self, List.take_zero] at hx
    exact ⟨hx, by simp [parse_container_output, hx]⟩

/-- Witness for C4: a reversed-marker output is not matched and takes the
fallback path, and a start marker immediately followed by an end marker
yields the empty sub-parse input. -/
theorem C4_witness :
    (extract_marked_output
        ("--NANOCLAW_OUTPUT_END--c--NANOCLAW_OUTPUT_START--".toList) = none ∧
      parse_container_output (fun _ => none)
          ("--NANOCLAW_OUTPUT_END--c--NANOCLAW_OUTPUT_START--".toList) false =
        parse_unmarked (fun _ => none)
          ("--NANOCLAW_OUTPUT_END--c--NANOCLAW_OUTPUT_START--".toList) false) ∧
    (extract_marked_output
        ("--NANOCLAW_OUTPUT_START----NANOCLAW_OUTPUT_END--".toList) = some [] ∧
      parse_container_output (fun _ => none)
          ("--NANOCLAW_OUTPUT_START----NANOCLAW_OUTPUT_END--".toList) true =
        parse_marked_content (fun _ => none) [] true) := by
  constructor
  · exact (C4_reversed_and_empty_pair (fun _ => none) _ false 24 0 (by decide)
      (by decide)).1 (by decide)
  · exact (C4_reversed_and_empty_pair (fun _ => none) _ true 0 25 (by decide)
      (by decide)).2 (by decide)

/-! Claim C1. -/

/-- C1 counterexample: on empty output with exit success = false — where both
the sentinel extraction and the last-non-blank-line sub-parse fail — the
synthesized result keeps the full raw output (here the empty string) as
result text, so the claimed `result = null` is false. -/
theorem C1_counterexample :
    (parse_container_output (fun _ => none) ([] : Str) false).result ≠ none := by
  decide

/-- C1 (amended): when sentinel extraction fails and the last non-blank line
does not sub-parse, the parser synthesizes a result whose status reflects the
exit flag, whose result text is the full raw output in BOTH cases, and whose
error text is the generic failure message exactly when the exit flag is
false; in particular empty output with exit success = false yields status
`error`, result = the (empty) raw output, error = the generic message. -/
theorem C1_synthesized_fallback (jp : Str → Option ContainerOutput)
    (output : Str) (success : Bool)
    (hex : extract_marked_output output = none)
    (hjp : jp (lastNonBlankLine output) = none) :
    parse_container_output jp output success =
      { status := if success then "success".toList else "error".toList
        result := some output
        new_session_id := none
        error := if success then none else some containerFailMsg } := by
  simp [parse_container_output, hex, parse_unmarked, hjp]

/-- Witness for C1 (amended): empty output with exit success = false. -/
theorem C1_witness :
    parse_container_output (fun _ => none) ([] : Str) false =
      { status := "error".toList, result := some [], new_session_id := none,
        error := some containerFailMsg } :=
  C1_synthesized_fallback (fun _ => none) [] false (by decide) (by decide)

/-! Claims C5 and C6. -/

/-- A concrete task row used by witnesses (an active one-shot task). -/
def taskBase : ScheduledTask :=
  { id := "t1".toList, group_folder := "g".toList, chat_jid := "c".toList,
    prompt := "p".toList, schedule_type := "once".toList,
    schedule_value := "2025-01-01T00:00:00Z".toList,
    context_mode := "isolated".toList, next_run := none, last_run := none,
    last_result := none, status := "active".toList,
    created_at := "2025-01-01T00:00:00Z".toList }

/-- C5: the schedule calculator returns no further occurrence (an absent
value, not an error) when the kind is `once`, when the kind is `interval` and
the value does not parse as an integer, when the kind is `cron` and the
expression is not parseable, and when the kind is none of the three. -/
theorem C5_no_further_occurrence (cronParse : Str → Option CronSched)
    (now : Int) (task : ScheduledTask) :
    (task.schedule_type = "once".toList →
      calculate_next_run cronParse now task = none) ∧
    (task.schedule_type = "interval".toList → parseI64 task.schedule_value = none →
      calculate_next_run cronParse now task = none) ∧
    (task.schedule_type = "cron".toList → cronParse task.schedule_value = none →
      calculate_next_run cronParse now task = none) ∧
    (task.schedule_type ≠ "cron".toList → task.schedule_type ≠ "interval".toList →
      task.schedule_type ≠ "once".toList →
      calculate_next_run cronParse now task = none) := by
  refine ⟨?_, ?_, ?_, ?_⟩
  · intro h
    have h1 : task.schedule_type ≠ "cron".toList := by rw [h]; decide
    have h2 : task.schedule_type ≠ "interval".toList := by rw [h]; decide
    simp only [calculate_next_run]
    rw [if_neg h1, if_neg h2, if_pos h]
  · intro h hv
    have h1 : task.schedule_type ≠ "cron".toList := by rw [h]; decide
    simp only [calculate_next_run]
    rw [if_neg h1, if_pos h]
    simp only [calculate_next_interval_run]
    rw [hv]
    rfl
  · intro h hc
    simp only [calculate_next_run]
    rw [if_pos h]
    simp only [calculate_next_cron_run]
    rw [hc]
  · intro h1 h2 h3
    simp only [calculate_next_run]
    rw [if_neg h1, if_neg h2, if_neg h3]

/-- Witness for C5: all four cases at concrete tasks. -/
theorem C5_witness :
    calculate_next_run (fun _ => none) 0 taskBase = none ∧
    calculate_next_run (fun _ => none) 0
      { taskBase with schedule_type := "interval".toList,
                      schedule_value := "not_a_number".toList } = none ∧
    calculate_next_run (fun _ => none) 0
      { taskBase with schedule_type := "cron".toList,
                      schedule_value := "bad cron".toList } = none ∧
    calculate_next_run (fun _ => none) 0
      { taskBase with schedule_type := "unknown".toList } = none :=
  ⟨(C5_no_further_occurrence (fun _ => none) 0 taskBase).1 (by decide),
   (C5_no_further_occurrence (fun _ => none) 0 _).2.1 (by decide) (by decide),
   (C5_no_further_occurrence (fun _ => none) 0 _).2.2.1 (by decide) rfl,
   (C5_no_further_occurrence (fun _ => none) 0 _).2.2.2 (by decide) (by decide)
     (by decide)⟩

/-- C6: for an interval task with value `"3600000"` and any supplied current
instant `now` (the model's explicit stand-in for the clock read inside
`calculate_next_interval_run`), the calculator returns exactly
`now + 3600000` milliseconds; purity in `now` is immediate from the
statement's universal quantification. -/
theorem C6_interval_hour_exact (cronParse : Str → Option CronSched)
    (now : Int) (task : ScheduledTask)
    (htype : task.schedule_type = "interval".toList)
    (hval : task.schedule_value = "3600000".toList) :
    calculate_next_run cronParse now task = some (now + 3600000) := by
  have h1 : task.schedule_type ≠ "cron".toList := by rw [htype]; decide
  have h2 : parseI64 ("3600000".toList) = some 3600000 := by decide
  simp only [calculate_next_run]
  rw [if_neg h1, if_pos htype]
  simp only [calculate_next_interval_run]
  rw [hval, h2]
  rfl

/-- Witness for C6: a concrete hourly interval task at instant 10. -/
theorem C6_witness :
    calculate_next_run (fun _ => none) 10
      { taskBase with schedule_type := "interval".toList,
                      schedule_value := "3600000".toList } = some 3600010 :=
  C6_interval_hour_exact (fun _ => none) 10 _ (by decide) (by decide)

/-! Scheduler-step lemmas shared by the claims about `execute_single_task`. -/

/-- Ids are unique across the stored task rows (`id TEXT PRIMARY KEY`,
src/db.rs 144). -/
def UniqueIds (σ : DBState) : Prop := σ.tasks.Pairwise fun a b => a.id ≠ b.id

/-- Data-model invariant of the spec: a `once` task in `completed` status has
no next-due timestamp. -/
def OnceCompletedNull (σ : DBState) : Prop :=
  ∀ r ∈ σ.tasks, r.schedule_type = "once".toList →
    r.status = "completed".toList → r.next_run = none

/-- Membership in a twice-mapped list comes from a source element. -/
theorem mem_map_map {α : Type} {l : List α} {f g : α → α} {y : α}
    (hy : y ∈ (l.map f).map g) : ∃ x ∈ l, y = g (f x) := by
  simp only [List.mem_map] at hy
  obtain ⟨a, ⟨x, hx, rfl⟩, rfl⟩ := hy
  exact ⟨x, hx, rfl⟩

/-- Mapping an id-preserving row update preserves pairwise-distinct ids. -/
theorem pairwise_ids_map {l : List ScheduledTask} {f : ScheduledTask → ScheduledTask}
    (hf : ∀ r, (f r).id = r.id)
    (hl : l.Pairwise fun a b => a.id ≠ b.id) :
    (l.map f).Pairwise fun a b => a.id ≠ b.id := by
  rw [List.pairwise_map]
  exact hl.imp fun h => by rw [hf, hf]; exact h

/-- The row returned by `load_task` carries the looked-up id. -/
theorem load_task_id (σ : DBState) (id : Str) (cur : ScheduledTask)
    (hl : load_task σ id = some cur) : cur.id = id := by
  simpa using List.find?_some hl

/-- With unique ids, any stored row carrying the id that `load_task` looked
up is the row `load_task` returned. -/
theorem row_eq_of_load (σ : DBState) (id : Str) (cur r : ScheduledTask)
    (hu : UniqueIds σ) (hl : load_task σ id = some cur) (hr : r ∈ σ.tasks)
    (hid : r.id = id) : r = cur := by
  have hmem : cur ∈ σ.tasks := List.mem_of_find?_eq_some hl
  have hcid : cur.id = id := by simpa using List.find?_some hl
  by_contra hne
  have hsymm : Symmetric fun (a b : ScheduledTask) => a.id ≠ b.id :=
    fun a b hab e => hab e.symm
  exact List.Pairwise.forall hsymm hu hr hmem hne (hid.trans hcid.symm)

/-- Step equation: the task id is not in the store. -/
theorem step_not_found (cronParse : Str → Option CronSched) (now : Int)
    (fmt : Int → Str) (nowStr : Str) (duration_ms : Int) (σ : DBState)
    (task : ScheduledTask) (outcome : ExecOutcome)
    (hl : load_task σ task.id = none) :
    execute_single_task cronParse now fmt nowStr duration_ms σ task outcome =
      (σ, Except.error ("Task not found".toList)) := by
  simp only [execute_single_task, hl]

/-- Step equation: the re-fetched row is no longer `active`. -/
theorem step_inactive (cronParse : Str → Option CronSched) (now : Int)
    (fmt : Int → Str) (nowStr : Str) (duration_ms : Int) (σ : DBState)
    (task : ScheduledTask) (outcome : ExecOutcome) (cur : ScheduledTask)
    (hl : load_task σ task.id = some cur)
    (hst : cur.status ≠ "active".toList) :
    execute_single_task cronParse now fmt nowStr duration_ms σ task outcome =
      (σ, Except.ok ()) := by
  simp only [execute_single_task, hl]
  rw [if_pos hst]

/-- Step equation: `run_container` returned `Err` (infrastructure failure). -/
theorem step_runErr (cronParse : Str → Option CronSched) (now : Int)
    (fmt : Int → Str) (nowStr : Str) (duration_ms : Int) (σ : DBState)
    (task : ScheduledTask) (msg : Str) (cur : ScheduledTask)
    (hl : load_task σ task.id = some cur)
    (hst : cur.status = "active".toList) :
    execute_single_task cronParse now fmt nowStr duration_ms σ task
        (ExecOutcome.runErr msg) =
      (mark_task_failed (log_task_run σ task
          { status := "error".toList, result := none, new_session_id := none,
            error := some msg } duration_ms ("error".toList) nowStr) task.id,
       Except.ok ()) := by
  simp only [execute_single_task, hl]
  rw [if_neg (not_not_intro hst)]

/-- Step equation: the timeout race elapsed first. -/
theorem step_timeout (cronParse : Str → Option CronSched) (now : Int)
    (fmt : Int → Str) (nowStr : Str) (duration_ms : Int) (σ : DBState)
    (task : ScheduledTask) (cur : ScheduledTask)
    (hl : load_task σ task.id = some cur)
    (hst : cur.status = "active".toList) :
    execute_single_task cronParse now fmt nowStr duration_ms σ task
        ExecOutcome.timeout =
      (mark_task_failed (log_task_run σ task
          { status := "timeout".toList, result := none, new_session_id := none,
            error := some ("Task execution timed out".toList) } duration_ms
          ("timeout".toList) nowStr) task.id,
       Except.ok ()) := by
  simp only [execute_single_task, hl]
  rw [if_neg (not_not_intro hst)]

/-- Step equation: the container ran to completion and its output parsed. -/
theorem step_completed (cronParse : Str → Option CronSched) (now : Int)
    (fmt : Int → Str) (nowStr : Str) (duration_ms : Int) (σ : DBState)
    (task : ScheduledTask) (output : ContainerOutput) (cur : ScheduledTask)
    (hl : load_task σ task.id = some cur)
    (hst : cur.status = "active".toList) :
    execute_single_task cronParse now fmt nowStr duration_ms σ task
        (ExecOutcome.completed output) =
      (if task.schedule_type = "once".toList then
        (mark_task_completed
          (log_task_run σ task output duration_ms ("success".toList) nowStr)
          task.id, Except.ok ())
      else
        match calculate_next_run cronParse now task with
        | some next_run =>
          (update_next_run
            (log_task_run σ task output duration_ms ("success".toList) nowStr)
            task.id (fmt next_run), Except.ok ())
        | none =>
          (log_task_run σ task output duration_ms ("success".toList) nowStr,
           Except.ok ())) := by
  simp only [execute_single_task, hl]
  rw [if_neg (not_not_intro hst)]

/-- Step equation: completed output on a `once` task. -/
theorem step_completed_once (cronParse : Str → Option CronSched) (now : Int)
    (fmt : Int → Str) (nowStr : Str) (duration_ms : Int) (σ : DBState)
    (task : ScheduledTask) (output : ContainerOutput) (cur : ScheduledTask)
    (hl : load_task σ task.id = some cur)
    (hst : cur.status = "active".toList)
    (ho : task.schedule_type = "once".toList) :
    execute_single_task cronParse now fmt nowStr duration_ms σ task
        (ExecOutcome.completed output) =
      (mark_task_completed
        (log_task_run σ task output duration_ms ("success".toList) nowStr)
        task.id, Except.ok ()) := by
  rw [step_completed cronParse now fmt nowStr duration_ms σ task output cur hl hst,
    if_pos ho]

/-- Step equation: completed output on a recurring task with a computed next
run. -/
theorem step_completed_next (cronParse : Str → Option CronSched) (now : Int)
    (fmt : Int → Str) (nowStr : Str) (duration_ms : Int) (σ : DBState)
    (task : ScheduledTask) (output : ContainerOutput) (cur : ScheduledTask)
    (next : Int) (hl : load_task σ task.id = some cur)
    (hst : cur.status = "active".toList)
    (ho : task.schedule_type ≠ "once".toList)
    (hc : calculate_next_run cronParse now task = some next) :
    execute_single_task cronParse now fmt nowStr duration_ms σ task
        (ExecOutcome.completed output) =
      (update_next_run
        (log_task_run σ task output duration_ms ("success".toList) nowStr)
        task.id (fmt next), Except.ok ()) := by
  rw [step_completed cronParse now fmt nowStr duration_ms σ task output cur hl hst,
    if_neg ho, hc]

/-- Step equation: completed output on a recurring task with no computed next
run. -/
theorem step_completed_nonext (cronParse : Str → Option CronSched) (now : Int)
    (fmt : Int → Str) (nowStr : Str) (duration_ms : Int) (σ : DBState)
    (task : ScheduledTask) (output : ContainerOutput) (cur : ScheduledTask)
    (hl : load_task σ task.id = some cur)
    (hst : cur.status = "active".toList)
    (ho : task.schedule_type ≠ "once".toList)
    (hc : calculate_next_run cronParse now task = none) :
    execute_single_task cronParse now fmt nowStr duration_ms σ task
        (ExecOutcome.completed output) =
      (log_task_run σ task output duration_ms ("success".toList) nowStr,
       Except.ok ()) := by
  rw [step_completed cronParse now fmt nowStr duration_ms σ task output cur hl hst,
    if_neg ho, hc]

/-! Claim C8. -/

/-- C8: a task selected as due whose re-fetched status is no longer `active`
is skipped entirely: whatever outcome the container run would have produced,
the store is returned unchanged — no run log row is appended and no task row
field (status, next-due, last-run, last-result) is mutated — and the call
reports success. -/
theorem C8_skip_inactive (cronParse : Str → Option CronSched) (now : Int)
    (fmt : Int → Str) (nowStr : Str) (duration_ms : Int) (σ : DBState)
    (task : ScheduledTask) (outcome : ExecOutcome) (cur : ScheduledTask)
    (hl : load_task σ task.id = some cur)
    (hst : cur.status ≠ "active".toList) :
    execute_single_task cronParse now fmt nowStr duration_ms σ task outcome =
      (σ, Except.ok ()) :=
  step_inactive cronParse now fmt nowStr duration_ms σ task outcome cur hl hst

/-- A stored row whose status was concurrently switched to `paused`. -/
def pausedRow : ScheduledTask := { taskBase with status := "paused".toList }

/-- Witness for C8: the stale selected copy is still `active` but the
re-fetched row is `paused`; the step leaves the store untouched. -/
theorem C8_witness :
    execute_single_task (fun _ => none) 0 (fun _ => []) ("ts".toList) 5
      ⟨[pausedRow], []⟩ taskBase ExecOutcome.timeout =
      (⟨[pausedRow], []⟩, Except.ok ()) :=
  C8_skip_inactive (fun _ => none) 0 (fun _ => []) ("ts".toList) 5
    ⟨[pausedRow], []⟩ taskBase ExecOutcome.timeout pausedRow (by decide) (by decide)

/-! Claim C2. -/

/-- C2 counterexample: when `run_container` fails with an infrastructure
error (for example a sandbox/temp directory creation failure), the scheduler
DOES write a run log row for the attempt, contradicting the claim that none
is written. -/
theorem C2_counterexample :
    (execute_single_task (fun _ => none) 0 (fun _ => []) ("ts".toList) 5
        ⟨[taskBase], []⟩ taskBase
        (ExecOutcome.runErr ("Failed to create temp directory: denied".toList))).1.run_logs ≠
      [] := by
  decide

/-- C2 (amended): an execution-infrastructure failure (`run_container`
returning an error: sandbox directory creation, request serialization, or
subprocess spawn failure) aborts that run before any output parsing, and the
scheduler records it as exactly one run log row with status `error`, empty
result text and the infrastructure error message as error text, marking the
task `failed`; it remains distinguishable from a subprocess-reported
execution error, which arrives as a completed parse and is logged with run
status `success`. -/
theorem C2_infra_failure_logged (cronParse : Str → Option CronSched) (now : Int)
    (fmt : Int → Str) (nowStr : Str) (duration_ms : Int) (σ : DBState)
    (task : ScheduledTask) (msg : Str) (cur : ScheduledTask)
    (hl : load_task σ task.id = some cur)
    (hst : cur.status = "active".toList) :
    ((execute_single_task cronParse now fmt nowStr duration_ms σ task
        (ExecOutcome.runErr msg)).1.run_logs =
      σ.run_logs ++
        [{ task_id := task.id, run_at := nowStr, duration_ms := duration_ms,
           status := "error".toList, result := [], error := msg }]) ∧
    (∀ r ∈ (execute_single_task cronParse now fmt nowStr duration_ms σ task
        (ExecOutcome.runErr msg)).1.tasks,
      r.id = task.id → r.status = "failed".toList) := by
  rw [step_runErr cronParse now fmt nowStr duration_ms σ task msg cur hl hst]
  constructor
  · simp [mark_task_failed, log_task_run]
  · intro r hr hid
    simp only [mark_task_failed, log_task_run] at hr
    obtain ⟨r₀, hr₀, rfl⟩ := mem_map_map hr
    by_cases h : (r₀.id == task.id) = true
    · simp [h]
    · exfalso
      simp [h] at hid
      exact h (by simp [hid])

/-- Witness for C2 (amended): a concrete infrastructure failure is logged
with status `error` and the task row is marked `failed`. -/
theorem C2_witness :
    ((execute_single_task (fun _ => none) 0 (fun _ => []) ("ts".toList) 7
        ⟨[taskBase], []⟩ taskBase
        (ExecOutcome.runErr ("spawn failed".toList))).1.run_logs =
      [{ task_id := "t1".toList, run_at := "ts".toList, duration_ms := 7,
         status := "error".toList, result := [],
         error := "spawn failed".toList }]) ∧
    ((execute_single_task (fun _ => none) 0 (fun _ => []) ("ts".toList) 7
        ⟨[taskBase], []⟩ taskBase
        (ExecOutcome.runErr ("spawn failed".toList))).1.tasks.map
      (fun r => r.status) = ["failed".toList]) := by
  have h := C2_infra_failure_logged (fun _ => none) 0 (fun _ => []) ("ts".toList) 7
    ⟨[taskBase], []⟩ taskBase ("spawn failed".toList) taskBase (by decide) (by decide)
  exact ⟨h.1.trans (by decide), by decide⟩

/-! Claim C9. -/

/-- An active recurring task whose interval value does not parse. -/
def intervalTask : ScheduledTask :=
  { taskBase with schedule_type := "interval".toList,
                  schedule_value := "not_a_number".toList }

/-- C9 counterexample: an execution that completes but reports an
error-shaped structured result is logged as a run with status `success`
(not `error`) and the task stays `active` (it is not marked `failed`). -/
theorem C9_counterexample :
    ((execute_single_task (fun _ => none) 0 (fun _ => []) ("ts".toList) 5
        ⟨[intervalTask], []⟩ intervalTask
        (ExecOutcome.completed
          { status := "error".toList, result := none, new_session_id := none,
            error := some ("boom".toList) })).1.run_logs.map
      (fun l => l.status) = ["success".toList]) ∧
    ((execute_single_task (fun _ => none) 0 (fun _ => []) ("ts".toList) 5
        ⟨[intervalTask], []⟩ intervalTask
        (ExecOutcome.completed
          { status := "error".toList, result := none, new_session_id := none,
            error := some ("boom".toList) })).1.tasks.map
      (fun r => r.status) = ["active".toList]) := by
  decide

/-- C9 (amended): with the re-fetched row active and unique stored ids, a
timeout is recorded as exactly one run log row with status `timeout` and the
task is marked `failed`; an execution that completes — whether or not its
structured result is error-shaped — is recorded as exactly one run log row
with status `success`, and the task is NOT marked `failed` (it is completed
or left/rescheduled). -/
theorem C9_timeout_failed_completed_not (cronParse : Str → Option CronSched)
    (now : Int) (fmt : Int → Str) (nowStr : Str) (duration_ms : Int)
    (σ : DBState) (task : ScheduledTask) (output : ContainerOutput)
    (cur : ScheduledTask) (hu : UniqueIds σ)
    (hl : load_task σ task.id = some cur)
    (hst : cur.status = "active".toList) :
    ((execute_single_task cronParse now fmt nowStr duration_ms σ task
        ExecOutcome.timeout).1.run_logs =
      σ.run_logs ++
        [{ task_id := task.id, run_at := nowStr, duration_ms := duration_ms,
           status := "timeout".toList, result := [],
           error := "Task execution timed out".toList }] ∧
     ∀ r ∈ (execute_single_task cronParse now fmt nowStr duration_ms σ task
        ExecOutcome.timeout).1.tasks,
       r.id = task.id → r.status = "failed".toList) ∧
    ((execute_single_task cronParse now fmt nowStr duration_ms σ task
        (ExecOutcome.completed output)).1.run_logs =
      σ.run_logs ++
        [{ task_id := task.id, run_at := nowStr, duration_ms := duration_ms,
           status := "success".toList, result := output.result.getD [],
           error := output.error.getD [] }] ∧
     ∀ r ∈ (execute_single_task cronParse now fmt nowStr duration_ms σ task
        (ExecOutcome.completed output)).1.tasks,
       r.id = task.id → r.status ≠ "failed".toList) := by
  constructor
  · rw [step_timeout cronParse now fmt nowStr duration_ms σ task cur hl hst]
    constructor
    · simp [mark_task_failed, log_task_run]
    · intro r hr hid
      simp only [mark_task_failed, log_task_run] at hr
      obtain ⟨r₀, hr₀, rfl⟩ := mem_map_map hr
      by_cases h : (r₀.id == task.id) = true
      · simp [h]
      · exfalso
        simp [h] at hid
        exact h (by simp [hid])
  · by_cases ho : task.schedule_type = "once".toList
    · rw [step_completed_once cronParse now fmt nowStr duration_ms σ task output cur
        hl hst ho]
      constructor
      · simp [mark_task_completed, log_task_run]
      · intro r hr hid
        simp only [mark_task_completed, log_task_run] at hr
        obtain ⟨r₀, hr₀, rfl⟩ := mem_map_map hr
        by_cases h : (r₀.id == task.id) = true
        · simp [h]
        · exfalso
          simp [h] at hid
          exact h (by simp [hid])
    · rcases hc : calculate_next_run cronParse now task with _ | next
      · rw [step_completed_nonext cronParse now fmt nowStr duration_ms σ task output
          cur hl hst ho hc]
        constructor
        · simp [log_task_run]
        · intro r hr hid
          simp only [log_task_run] at hr
          obtain ⟨r₀, hr₀, rfl⟩ := List.mem_map.mp hr
          by_cases h : (r₀.id == task.id) = true
          · have hr₀cur : r₀ = cur :=
              row_eq_of_load σ task.id cur r₀ hu hl hr₀ (by simpa using h)
            have hcid : cur.id = task.id := load_task_id σ task.id cur hl
            simp [hr₀cur, hcid, hst]
          · exfalso
            simp [h] at hid
            exact h (by simp [hid])
      · rw [step_completed_next cronParse now fmt nowStr duration_ms σ task output
          cur next hl hst ho hc]
        constructor
        · simp [update_next_run, log_task_run]
        · intro r hr hid
          simp only [update_next_run, log_task_run] at hr
          obtain ⟨r₀, hr₀, rfl⟩ := mem_map_map hr
          by_cases h : (r₀.id == task.id) = true
          · have hr₀cur : r₀ = cur :=
              row_eq_of_load σ task.id cur r₀ hu hl hr₀ (by simpa using h)
            have hcid : cur.id = task.id := load_task_id σ task.id cur hl
            simp [hr₀cur, hcid, hst]
          · exfalso
            simp [h] at hid
            exact h (by simp [hid])

/-- Witness for C9 (amended): the timeout and completed branches at a
concrete one-task store. -/
theorem C9_witness :
    ((execute_single_task (fun _ => none) 0 (fun _ => []) ("ts".toList) 5
        ⟨[taskBase], []⟩ taskBase ExecOutcome.timeout).1.run_logs =
      [{ task_id := "t1".toList, run_at := "ts".toList, duration_ms := 5,
         status := "timeout".toList, result := [],
         error := "Task execution timed out".toList }]) ∧
    ((execute_single_task (fun _ => none) 0 (fun _ => []) ("ts".toList) 5
        ⟨[taskBase], []⟩ taskBase
        (ExecOutcome.completed okRecord)).1.run_logs =
      [{ task_id := "t1".toList, run_at := "ts".toList, duration_ms := 5,
         status := "success".toList, result := "ok".toList, error := [] }]) := by
  have h := C9_timeout_failed_completed_not (fun _ => none) 0 (fun _ => [])
    ("ts".toList) 5 ⟨[taskBase], []⟩ taskBase okRecord taskBase
    (by simp [UniqueIds]) (by decide) (by decide)
  exact ⟨h.1.1.trans (by decide), h.2.1.trans (by decide)⟩

/-! Claim C7. -/

/-- C7: after one successful execution of an active `once` task, every stored
row with its id is `completed` with a null next-due timestamp; and the
invariant "ids are unique and every completed `once` row has a null next-due"
is preserved by EVERY scheduler step, so such a task never receives a
non-null next-due value afterwards. -/
theorem C7_once_completed_forever (cronParse : Str → Option CronSched)
    (now : Int) (fmt : Int → Str) (nowStr : Str) (duration_ms : Int) :
    (∀ (σ : DBState) (task : ScheduledTask) (output : ContainerOutput)
        (cur : ScheduledTask), load_task σ task.id = some cur →
        cur.status = "active".toList → task.schedule_type = "once".toList →
        ∀ r ∈ (execute_single_task cronParse now fmt nowStr duration_ms σ task
            (ExecOutcome.completed output)).1.tasks,
          r.id = task.id → r.status = "completed".toList ∧ r.next_run = none) ∧
    (∀ (σ : DBState) (task : ScheduledTask) (outcome : ExecOutcome),
        UniqueIds σ → OnceCompletedNull σ →
        UniqueIds (execute_single_task cronParse now fmt nowStr duration_ms σ task
          outcome).1 ∧
        OnceCompletedNull (execute_single_task cronParse now fmt nowStr duration_ms
          σ task outcome).1) := by
  constructor
  · intro σ task output cur hl hst ho r hr hid
    rw [step_completed_once cronParse now fmt nowStr duration_ms σ task output cur
      hl hst ho] at hr
    simp only [mark_task_completed, log_task_run] at hr
    obtain ⟨r₀, hr₀, rfl⟩ := mem_map_map hr
    by_cases h : (r₀.id == task.id) = true
    · simp [h]
    · exfalso
      simp [h] at hid
      exact h (by simp [hid])
  · intro σ task outcome hu hinv
    rcases hL : load_task σ task.id with _ | cur
    · rw [step_not_found cronParse now fmt nowStr duration_ms σ task outcome hL]
      exact ⟨hu, hinv⟩
    · by_cases hA : cur.status = "active".toList
      · cases outcome with
        | timeout =>
          rw [step_timeout cronParse now fmt nowStr duration_ms σ task cur hL hA]
          constructor
          · unfold UniqueIds
            simp only [mark_task_failed, log_task_run]
            refine pairwise_ids_map ?_ (pairwise_ids_map ?_ hu) <;>
              (intro r; by_cases h : (r.id == task.id) = true <;> simp [h])
          · intro r hr htype hstat
            simp only [mark_task_failed, log_task_run] at hr
            obtain ⟨r₀, hr₀, rfl⟩ := mem_map_map hr
            by_cases h : (r₀.id == task.id) = true
            · simp [h] at hstat
            · simp only [h] at htype hstat ⊢
              simp [h]
              exact hinv r₀ hr₀ (by simpa [h] using htype) (by simpa [h] using hstat)
        | runErr msg =>
          rw [step_runErr cronParse now fmt nowStr duration_ms σ task msg cur hL hA]
          constructor
          · unfold UniqueIds
            simp only [mark_task_failed, log_task_run]
            refine pairwise_ids_map ?_ (pairwise_ids_map ?_ hu) <;>
              (intro r; by_cases h : (r.id == task.id) = true <;> simp [h])
          · intro r hr htype hstat
            simp only [mark_task_failed, log_task_run] at hr
            obtain ⟨r₀, hr₀, rfl⟩ := mem_map_map hr
            by_cases h : (r₀.id == task.id) = true
            · simp [h] at hstat
            · simp only [h] at htype hstat ⊢
              simp [h]
              exact hinv r₀ hr₀ (by simpa [h] using htype) (by simpa [h] using hstat)
        | completed output =>
          by_cases ho : task.schedule_type = "once".toList
          · rw [step_completed_once cronParse now fmt nowStr duration_ms σ task
              output cur hL hA ho]
            constructor
            · unfold UniqueIds
              simp only [mark_task_completed, log_task_run]
              refine pairwise_ids_map ?_ (pairwise_ids_map ?_ hu) <;>
                (intro r; by_cases h : (r.id == task.id) = true <;> simp [h])
            · intro r hr htype hstat
              simp only [mark_task_completed, log_task_run] at hr
              obtain ⟨r₀, hr₀, rfl⟩ := mem_map_map hr
              by_cases h : (r₀.id == task.id) = true
              · simp [h]
              · simp [h]
                exact hinv r₀ hr₀ (by simpa [h] using htype) (by simpa [h] using hstat)
          · rcases hc : calculate_next_run cronParse now task with _ | next
            · rw [step_completed_nonext cronParse now fmt nowStr duration_ms σ task
                output cur hL hA ho hc]
              constructor
              · unfold UniqueIds
                simp only [log_task_run]
                refine pairwise_ids_map ?_ hu
                intro r
                by_cases h : (r.id == task.id) = true <;> simp [h]
              · intro r hr htype hstat
                simp only [log_task_run] at hr
                obtain ⟨r₀, hr₀, rfl⟩ := List.mem_map.mp hr
                by_cases h : (r₀.id == task.id) = true
                · simp [h]
                  exact hinv r₀ hr₀ (by simpa [h] using htype) (by simpa [h] using hstat)
                · simp [h]
                  exact hinv r₀ hr₀ (by simpa [h] using htype) (by simpa [h] using hstat)
            · rw [step_completed_next cronParse now fmt nowStr duration_ms σ task
                output cur next hL hA ho hc]
              constructor
              · unfold UniqueIds
                simp only [update_next_run, log_task_run]
                refine pairwise_ids_map ?_ (pairwise_ids_map ?_ hu) <;>
                  (intro r; by_cases h : (r.id == task.id) = true <;> simp [h])
              · intro r hr htype hstat
                simp only [update_next_run, log_task_run] at hr
                obtain ⟨r₀, hr₀, rfl⟩ := mem_map_map hr
                by_cases h : (r₀.id == task.id) = true
                · have hr₀cur : r₀ = cur :=
                    row_eq_of_load σ task.id cur r₀ hu hL hr₀ (by simpa using h)
                  have hcid : cur.id = task.id := load_task_id σ task.id cur hL
                  simp [hr₀cur, hcid, hA] at hstat
                · simp [h]
                  exact hinv r₀ hr₀ (by simpa [h] using htype) (by simpa [h] using hstat)
      · rw [step_inactive cronParse now fmt nowStr duration_ms σ task outcome cur
          hL hA]
        exact ⟨hu, hinv⟩

/-- The row of the witness store after the completing step. -/
def completedRow : ScheduledTask :=
  { taskBase with last_run := some ("ts".toList), last_result := some ("ok".toList),
                  status := "completed".toList, next_run := none }

/-- Witness for C7: the concrete post-row of a completed `once` task, and the
invariant at a concrete post-state. -/
theorem C7_witness :
    (completedRow.status = "completed".toList ∧ completedRow.next_run = none) ∧
    (UniqueIds (execute_single_task (fun _ => none) 0 (fun _ => []) ("ts".toList) 5
        ⟨[taskBase], []⟩ taskBase ExecOutcome.timeout).1 ∧
     OnceCompletedNull (execute_single_task (fun _ => none) 0 (fun _ => [])
        ("ts".toList) 5 ⟨[taskBase], []⟩ taskBase ExecOutcome.timeout).1) := by
  constructor
  · exact (C7_once_completed_forever (fun _ => none) 0 (fun _ => []) ("ts".toList)
      5).1 ⟨[taskBase], []⟩ taskBase okRecord taskBase (by decide) (by decide)
      (by decide) completedRow (by decide) (by decide)
  · exact (C7_once_completed_forever (fun _ => none) 0 (fun _ => []) ("ts".toList)
      5).2 ⟨[taskBase], []⟩ taskBase ExecOutcome.timeout (by simp [UniqueIds])
      (by intro r hr h1 h2; simp at hr; rw [hr] at h2; exact absurd h2 (by decide))

end NuClaw
